import Mathlib

/-!
Verification development for the Zero Calendar recurring-event resolution and
multi-source merge engine (`src/lib/calendar.ts`, `src/lib/google-calendar.ts`,
`src/lib/ai-tools.ts`).

Modelling conventions, used throughout:

* Instants are epoch milliseconds (`Int`), the value of JavaScript
  `Date#getTime()` / the instant denoted by a `Date#toISOString()` string.
  ISO-string fields of the source (`start`, `end`, exception `date`s,
  `until`) are modelled by the instant they parse to.
* The JavaScript runtime's local zone is taken to be UTC (the server
  deployment assumption): `getFullYear`/`getMonth`/`getDate`/`setHours` and
  `date-fns` day helpers then operate on UTC civil dates.
* `date-fns-tz` zone arithmetic is abstracted by an ambient offset table
  `zones : String → Int → Int` giving a zone's UTC offset in minutes at a
  given instant; `utcToZonedTime(d, tz).toISOString()` denotes the instant
  `d + zones tz d * 60000` under the UTC-runtime assumption.
* `@vercel/kv` sorted sets are modelled as lists; `zrange key 0 -1`
  returns the list, `zadd` appends, `zrem` removes the first value-equal
  element.  (Score ordering is abstracted; only membership and the relative
  order of reads matter to the claims.)
* The reserved Lean keywords `end` and `until` force the field renamings
  `end ↦ stop` and `until ↦ untilDate`.
-/

/-! ## Civil-date arithmetic (Gregorian calendar, UTC runtime zone)

`civilFromDays`/`daysFromCivil` are the standard Gregorian conversions
between a day number (days since 1970-01-01) and a calendar date; they model
the `Date` accessors `getFullYear`/`getMonth (0-based in JS, 1-based here)`/
`getDate` and the constructor `new Date(y, m, d)` under the UTC runtime
assumption. -/

def msPerDay : Int := 86400000

def civilFromDays (z0 : Int) : Int × Int × Int :=
  let z := z0 + 719468
  let era := Int.fdiv z 146097
  let doe := z - era * 146097
  let yoe := (doe - doe / 1460 + doe / 36524 - doe / 146096) / 365
  let y := yoe + era * 400
  let doy := doe - (365 * yoe + yoe / 4 - yoe / 100)
  let mp := (5 * doy + 2) / 153
  let d := doy - (153 * mp + 2) / 5 + 1
  let m := mp + (if mp < 10 then 3 else -9)
  (y + (if m ≤ 2 then 1 else 0), m, d)

def daysFromCivil (y0 m d : Int) : Int :=
  let y := y0 - (if m ≤ 2 then 1 else 0)
  let era := Int.fdiv y 400
  let yoe := y - era * 400
  let mp := Int.emod (m + 9) 12
  let doy := (153 * mp + 2) / 5 + d - 1
  let doe := yoe * 365 + yoe / 4 - yoe / 100 + doy
  era * 146097 + doe - 719468

/-- Day number (days since the epoch) of an instant: UTC calendar day. -/
def dayOfInstant (t : Int) : Int := Int.fdiv t msPerDay

/-- Millisecond offset within the UTC day. -/
def msOfDay (t : Int) : Int := t - dayOfInstant t * msPerDay

/-- Calendar date `(year, month (1-based), day)` of an instant, as read by the
JS accessors `getFullYear()/getMonth()+1/getDate()` under a UTC runtime. -/
def civilOfInstant (t : Int) : Int × Int × Int := civilFromDays (dayOfInstant t)

/-- The `yyyyMMdd` date stamp `format(date, "yyyyMMdd")` used for derived
recurring-instance ids. -/
def pad2 (n : Int) : String := if n < 10 then "0" ++ toString n else toString n

def pad4 (n : Int) : String :=
  if n < 10 then "000" ++ toString n
  else if n < 100 then "00" ++ toString n
  else if n < 1000 then "0" ++ toString n
  else toString n

def dateStamp (t : Int) : String :=
  let c := civilOfInstant t
  pad4 c.1 ++ pad2 c.2.1 ++ pad2 c.2.2

/-- JS `getDay()` weekday of a day number (0 = Sunday … 6 = Saturday);
day 0 (1970-01-01) was a Thursday. -/
def jsWeekday (d : Int) : Int := Int.emod (d + 4) 7

/-- Weekday of a day number in `rrule` numbering (0 = MO … 6 = SU). -/
def rruleWeekday (d : Int) : Int := Int.emod (d + 3) 7

/-! ## Data model (`CalendarEvent`, `RecurrenceRule` of `src/lib/calendar.ts`) -/

inductive Frequency where
  | daily | weekly | monthly | yearly
deriving DecidableEq, Repr

inductive EventSource where
  | google | local | microsoft
deriving DecidableEq, Repr

/-- `RecurrenceRule` of `src/lib/calendar.ts` (string dates parsed to
instants; `byDay`/`weekStart` keep their two-letter codes as in the source;
the unused `exceptions?: string[]` member is omitted). -/
structure RecurrenceRule where
  frequency : Frequency
  interval : Int
  count : Option Int := none
  untilDate : Option Int := none
  byDay : Option (List String) := none
  byMonthDay : Option (List Int) := none
  byMonth : Option (List Int) := none
  bySetPos : Option (List Int) := none
  weekStart : Option String := none
deriving DecidableEq, Repr

inductive ExceptionStatus where
  | cancelled | modified
deriving DecidableEq, Repr

/-- The partial payload of a `modified` exception
(`Omit<CalendarEvent, "id" | "userId" | "recurrence" | "exceptions">`
restricted to the members the engine reads/writes: title, description,
start, end, location, color, allDay). -/
structure ModifiedPayload where
  title : String
  description : Option String := none
  start : Int
  stop : Int
  location : Option String := none
  color : Option String := none
  allDay : Bool := false
deriving DecidableEq, Repr

structure EventException where
  date : Int
  status : ExceptionStatus
  modifiedEvent : Option ModifiedPayload := none
deriving DecidableEq, Repr

/-- `CalendarEvent` of `src/lib/calendar.ts`.  `isRecurringInstance`,
`originalEventId` and `exceptionDate` are the transient instance tags the
source attaches to derived occurrences.  Optional booleans (`allDay`,
`isRecurringInstance`) are modelled by `Bool` with `false` for "absent",
matching their only (truthiness) uses. Metadata the engine round-trips but
never reads (attendees, categories, reminders, isRecurring) is omitted. -/
structure CalendarEvent where
  id : String
  title : String
  description : Option String := none
  start : Int
  stop : Int
  location : Option String := none
  color : Option String := none
  userId : String
  source : Option EventSource := none
  sourceId : Option String := none
  recurrence : Option RecurrenceRule := none
  exceptions : Option (List EventException) := none
  timezone : Option String := none
  allDay : Bool := false
  isRecurringInstance : Bool := false
  originalEventId : Option String := none
  exceptionDate : Option Int := none
deriving DecidableEq, Repr

/-! ## Occurrence enumeration

Modelled from the spec: the source delegates occurrence enumeration to the
external `rrule` npm library (`new RRule(options)` and
`rule.between(startRange, endRange, true)`), which is not part of this
repository.  The model below follows the spec's §3/§4.1 description of the
rule semantics (RFC-5545 style): occurrences are anchored at `dtstart`,
honour `interval`, `count`/`until` and the `by*` constraints, `count` is
series-relative, and `between` with `inc = true` returns the occurrences
`t` with `after ≤ t ≤ before`.  `bySetPos` and ordinal ("nth weekday")
`byDay` forms are outside the modelled fragment (no claim exercises them);
weekly `interval` grouping uses `wkst` (default MO) week boundaries. -/

structure RRuleOptions where
  freq : Frequency
  interval : Int
  dtstart : Int
  count : Option Int := none
  untilDate : Option Int := none
  byweekday : Option (List (Option Int)) := none
  bymonthday : Option (List Int) := none
  bymonth : Option (List Int) := none
  bysetpos : Option (List Int) := none
  wkst : Option Int := none
deriving DecidableEq, Repr

/-- Day number of the `wkst`-start of the week containing day `d`. -/
def weekAnchor (wkst : Int) (d : Int) : Int :=
  d - Int.emod (rruleWeekday d - wkst + 7) 7

/-- Whether day `d` carries an occurrence of the rule whose first occurrence
day is `d0` (the `dtstart` day).  Modelled from the spec (see section
comment): this is the candidate-day filter of the rrule iterator. -/
def occursOnDay (opts : RRuleOptions) (d0 : Int) (d : Int) : Bool :=
  let c := civilFromDays d
  let c0 := civilFromDays d0
  let monthFilter :=
    match opts.bymonth with
    | some ms => ms.contains c.2.1
    | none => true
  let base :=
    match opts.freq with
    | .daily =>
        Int.emod (d - d0) opts.interval == 0 &&
        (match opts.byweekday with
         | some ws => ws.contains (some (rruleWeekday d))
         | none => true) &&
        (match opts.bymonthday with
         | some ds => ds.contains c.2.2
         | none => true)
    | .weekly =>
        let w := opts.wkst.getD 0
        Int.emod (Int.fdiv (weekAnchor w d - weekAnchor w d0) 7) opts.interval == 0 &&
        (match opts.byweekday with
         | some ws => ws.contains (some (rruleWeekday d))
         | none => rruleWeekday d == rruleWeekday d0) &&
        (match opts.bymonthday with
         | some ds => ds.contains c.2.2
         | none => true)
    | .monthly =>
        Int.emod ((c.1 - c0.1) * 12 + (c.2.1 - c0.2.1)) opts.interval == 0 &&
        (match opts.bymonthday with
         | some ds => ds.contains c.2.2
         | none =>
           match opts.byweekday with
           | some ws => ws.contains (some (rruleWeekday d))
           | none => c.2.2 == c0.2.2)
    | .yearly =>
        Int.emod (c.1 - c0.1) opts.interval == 0 &&
        (match opts.bymonth with
         | some ms => ms.contains c.2.1
         | none => c.2.1 == c0.2.1) &&
        (match opts.bymonthday with
         | some ds => ds.contains c.2.2
         | none => c.2.2 == c0.2.2)
  base && monthFilter

/-- The occurrence instants of the rule on days `dtstartDay .. horizonDay`,
before the `count` bound: each matching day at `dtstart`'s time of day. -/
def occurrenceCandidates (opts : RRuleOptions) (horizonDay : Int) : List Int :=
  let d0 := dayOfInstant opts.dtstart
  let tod := msOfDay opts.dtstart
  (List.range (horizonDay - d0 + 1).toNat).filterMap fun i =>
    let d := d0 + i
    if occursOnDay opts d0 d then some (d * msPerDay + tod) else none

/-- `rule.between(after, before, true)` of the rrule model: the series
(anchored at `dtstart`, `until`-bounded, first `count` occurrences)
intersected with the inclusive window `[after, before]`. -/
def rruleBetween (opts : RRuleOptions) (after before : Int) : List Int :=
  let horizon := dayOfInstant before
  let series := occurrenceCandidates opts horizon
  let series :=
    match opts.untilDate with
    | some u => series.filter (fun t => decide (t ≤ u))
    | none => series
  let series :=
    match opts.count with
    | some c => series.take c.toNat
    | none => series
  series.filter (fun t => decide (after ≤ t) && decide (t ≤ before))

/-! ## `src/lib/calendar.ts` — recurrence expansion -/

/-- The `dayMap` lookup of `recurrenceRuleToRRuleOptions`
(`RRule.MO = 0 … RRule.SU = 6`); unknown codes give `undefined`,
modelled as `none`. -/
def dayMapJs (s : String) : Option Int :=
  if s = "MO" then some 0
  else if s = "TU" then some 1
  else if s = "WE" then some 2
  else if s = "TH" then some 3
  else if s = "FR" then some 4
  else if s = "SA" then some 5
  else if s = "SU" then some 6
  else none

/-- `recurrenceRuleToRRuleOptions` of `src/lib/calendar.ts`.  Note the JS
truthiness quirks carried over faithfully: `if (rule.count)` leaves a zero
count unset, and unknown `weekStart` codes leave `wkst` unset. -/
def recurrenceRuleToRRuleOptions (rule : RecurrenceRule) (eventStart : Int) : RRuleOptions :=
  { freq := rule.frequency
    interval := rule.interval
    dtstart := eventStart
    count := match rule.count with
      | some c => if c == 0 then none else some c
      | none => none
    untilDate := rule.untilDate
    byweekday := rule.byDay.map (fun l => l.map dayMapJs)
    bymonthday := rule.byMonthDay
    bymonth := rule.byMonth
    bysetpos := rule.bySetPos
    wkst := rule.weekStart.bind dayMapJs }

/-- JS `a || b` on a required string field (empty string falls back). -/
def jsOrStr (a b : String) : String := if a = "" then b else a

/-- JS `a || b` on optional string fields (absent or empty falls back). -/
def jsOrOpt (a b : Option String) : Option String :=
  match a with
  | some s => if s = "" then b else some s
  | none => b

/-- Whether the exception's stored date and the occurrence instant fall on
the same calendar date: the `getFullYear`/`getMonth`/`getDate` comparison of
`generateRecurringInstances` (UTC runtime). -/
def sameCivilDate (exDate t : Int) : Bool :=
  let a := civilOfInstant exDate
  let b := civilOfInstant t
  a.1 == b.1 && a.2.1 == b.2.1 && a.2.2 == b.2.2

/-- The per-occurrence body of the `occurrences.map` in
`generateRecurringInstances`: `none` models the `null` returned for a
cancelled occurrence (filtered out afterwards). -/
def emitInstance (event : CalendarEvent) (duration : Int) (t : Int) : Option CalendarEvent :=
  let exc := (event.exceptions.getD []).find? (fun ex => sameCivilDate ex.date t)
  match exc with
  | some ex =>
    if ex.status = ExceptionStatus.cancelled then
      none
    else
      match ex.modifiedEvent with
      | some m =>
          some { event with
                 id := event.id ++ "_" ++ dateStamp t
                 start := m.start
                 stop := m.stop
                 title := jsOrStr m.title event.title
                 description := jsOrOpt m.description event.description
                 location := jsOrOpt m.location event.location
                 color := jsOrOpt m.color event.color
                 isRecurringInstance := true
                 originalEventId := some event.id
                 exceptionDate := some ex.date }
      | none =>
          some { event with
                 id := event.id ++ "_" ++ dateStamp t
                 start := t
                 stop := t + duration
                 isRecurringInstance := true
                 originalEventId := some event.id }
  | none =>
      some { event with
             id := event.id ++ "_" ++ dateStamp t
             start := t
             stop := t + duration
             isRecurringInstance := true
             originalEventId := some event.id }

/-- `generateRecurringInstances` of `src/lib/calendar.ts` (the `timezone`
parameter is accepted and unused exactly as in the source). -/
def generateRecurringInstances (event : CalendarEvent) (startRange endRange : Int)
    (timezone : String) : List CalendarEvent :=
  match event.recurrence with
  | none => [event]
  | some rule =>
    let _ := timezone
    let duration := event.stop - event.start
    let occurrences := rruleBetween (recurrenceRuleToRRuleOptions rule event.start) startRange endRange
    occurrences.filterMap (emitInstance event duration)

/-! ## `src/lib/calendar.ts` — timezone adjustment -/

/-- `adjustEventTimezone` of `src/lib/calendar.ts`.  `zones` is the ambient
IANA offset table (minutes east of UTC at a given instant);
`utcToZonedTime(d, tz)` under a UTC runtime yields the instant
`d + zones tz d * 60000`.  Note the source consults only `toTimezone` for
the shift; `fromTimezone` is used solely in the equality test. -/
def adjustEventTimezone (zones : String → Int → Int) (event : CalendarEvent)
    (fromTimezone toTimezone : String) : CalendarEvent :=
  if fromTimezone = toTimezone ∨ event.allDay then
    event
  else
    { event with
      start := event.start + zones toTimezone event.start * 60000
      stop := event.stop + zones toTimezone event.stop * 60000
      timezone := some toTimezone }

/-! ## `src/lib/google-calendar.ts` — provider client model -/

/-- Google-side representation of an event, as consumed by
`convertGoogleEventToCalendarEvent` (`dateTime` strings parsed to
instants). -/
structure GoogleCalendarEvent where
  id : String
  summary : String
  description : Option String := none
  startDateTime : Int
  stopDateTime : Int
  startTimeZone : Option String := none
  location : Option String := none
  colorId : Option String := none
deriving DecidableEq, Repr

/-- The `colorMap` table of `src/lib/google-calendar.ts` with its
`"#3b82f6"` default. -/
def colorFromId (cid : Option String) : String :=
  match cid with
  | none => "#3b82f6"
  | some c =>
    if c = "1" then "#3b82f6" else if c = "2" then "#10b981"
    else if c = "3" then "#ef4444" else if c = "4" then "#f59e0b"
    else if c = "5" then "#8b5cf6" else if c = "6" then "#ec4899"
    else if c = "7" then "#6366f1" else if c = "8" then "#14b8a6"
    else if c = "9" then "#f97316" else if c = "10" then "#84cc16"
    else if c = "11" then "#06b6d4" else "#3b82f6"

/-- `convertGoogleEventToCalendarEvent` of `src/lib/google-calendar.ts`. -/
def convertGoogleEventToCalendarEvent (g : GoogleCalendarEvent) (userId : String) : CalendarEvent :=
  { id := "google_" ++ g.id
    title := g.summary
    description := g.description
    start := g.startDateTime
    stop := g.stopDateTime
    location := g.location
    color := some (colorFromId g.colorId)
    userId := userId
    source := some EventSource.google
    timezone := some (g.startTimeZone.getD "UTC") }

/-- Outcome of the provider interaction inside `getGoogleCalendarEvents`:
either the fetched items, an HTTP/network failure of the events request, or
a failure of the token refresh (`refreshAccessTokenIfNeeded` throwing). -/
inductive FetchOutcome where
  | ok (items : List GoogleCalendarEvent)
  | httpError
  | refreshFailed
deriving DecidableEq, Repr

/-- `getGoogleCalendarEvents` of `src/lib/google-calendar.ts`: the
surrounding `try/catch` turns every failure — including a refresh failure —
into an empty result; no error escapes to the caller. -/
def getGoogleCalendarEvents (fetch : FetchOutcome) (userId : String) : List CalendarEvent :=
  match fetch with
  | .ok items => items.map (fun g => convertGoogleEventToCalendarEvent g userId)
  | .httpError => []
  | .refreshFailed => []

/-- `storeGoogleEventsInDatabase` of `src/lib/google-calendar.ts`: insert
fetched events whose id is not yet mirrored, then sweep mirrored entries
whose id is no longer upstream. -/
def storeGoogleEventsInDatabase (mirror events : List CalendarEvent) : List CalendarEvent :=
  let adds := events.filter (fun e => !(mirror.any (fun old => old.id == e.id)))
  (mirror ++ adds).filter (fun e => events.any (fun cur => cur.id == e.id))

/-- Mirror contents after a `getGoogleCalendarEvents` call: the store step
runs only on a successful fetch (both failure modes are caught before it). -/
def mirrorAfterFetch (mirror : List CalendarEvent) (fetch : FetchOutcome)
    (userId : String) : List CalendarEvent :=
  match fetch with
  | .ok items => storeGoogleEventsInDatabase mirror
      (items.map (fun g => convertGoogleEventToCalendarEvent g userId))
  | _ => mirror

/-! ## `src/lib/calendar.ts` — `getEvents` -/

/-- Per-user Google connection state as read by `getEvents`
(`provider === "google" && accessToken && refreshToken`), the outcome of the
provider fetch, and the mirror cache `google_events:{userId}`. -/
structure GoogleState where
  connected : Bool
  fetch : FetchOutcome
  mirror : List CalendarEvent
deriving DecidableEq, Repr

/-- The external contribution to `getEvents`: the Google fetch when
connected (failures already collapsed to `[]` by `getGoogleCalendarEvents`),
nothing otherwise.  The mirror cache is not consulted on any path. -/
def externalContribution (gs : GoogleState) (userId : String) : List CalendarEvent :=
  if gs.connected then getGoogleCalendarEvents gs.fetch userId else []

/-- The window test `getEvents` applies to a non-recurring local event
(start in window, or end in window, or event spanning the window). -/
def nonRecurringIncluded (e : CalendarEvent) (startTs endTs : Int) : Bool :=
  (decide (startTs ≤ e.start) && decide (e.start ≤ endTs)) ||
  (decide (startTs ≤ e.stop) && decide (e.stop ≤ endTs)) ||
  (decide (e.start ≤ startTs) && decide (e.stop ≥ endTs))

/-- The per-event body of the local loop in `getEvents`: recurring masters
are expanded (instances are not re-zoned), non-recurring events in the
window are timezone-adjusted from their stored zone (default UTC) to the
display zone. -/
def processLocalEvent (zones : String → Int → Int) (timezone : String)
    (startUtc endUtc : Int) (event : CalendarEvent) : List CalendarEvent :=
  match event.recurrence with
  | some _ => generateRecurringInstances event startUtc endUtc timezone
  | none =>
      if nonRecurringIncluded event startUtc endUtc then
        [adjustEventTimezone zones event (event.timezone.getD "UTC") timezone]
      else
        []

/-- The local-ledger contribution to `getEvents` (the full-history read
`zrange events:{userId} 0 -1` followed by the per-event loop). -/
def localContribution (zones : String → Int → Int) (timezone : String)
    (localEvents : List CalendarEvent) (startUtc endUtc : Int) : List CalendarEvent :=
  localEvents.flatMap (processLocalEvent zones timezone startUtc endUtc)

def startLE (a b : CalendarEvent) : Prop := a.start ≤ b.start

instance : DecidableRel startLE := fun a b => Int.decLe a.start b.start

/-- The final `events.sort((a, b) => a.start - b.start)`: a stable ascending
sort by start (JS `Array#sort` is stable, hence uniquely determined;
insertion sort realises it). -/
def sortByStart (l : List CalendarEvent) : List CalendarEvent :=
  List.insertionSort startLE l

/-- `getEvents` of `src/lib/calendar.ts`, given the user's resolved display
timezone, Google state and local ledger: external contribution concatenated
with the processed local events, sorted ascending by start.  (There is no
dedup step and the mirror cache is never read; contrast `searchEvents`.) -/
def getEvents (zones : String → Int → Int) (gs : GoogleState) (userId timezone : String)
    (localEvents : List CalendarEvent) (startUtc endUtc : Int) : List CalendarEvent :=
  sortByStart (externalContribution gs userId ++
               localContribution zones timezone localEvents startUtc endUtc)

/-! ## `src/lib/calendar.ts` — write paths -/

/-- `createEvent` of `src/lib/calendar.ts` on a ledger for one user.
`googleCreate` is the result of `createGoogleCalendarEvent` (`none` models
every failure, including refresh failure — that function catches internally
and returns `null`).  `uuid` stands for the generated `uuidv4()`.  Returns
the ledger after the call and the returned event. -/
def createEvent (connected : Bool) (googleCreate : Option CalendarEvent) (uuid : String)
    (timezone : String) (ledger : List CalendarEvent) (newEvent : CalendarEvent) :
    List CalendarEvent × CalendarEvent :=
  let e0 := { newEvent with timezone := some (newEvent.timezone.getD timezone) }
  let e1 := if e0.id = "" then { e0 with id := "event_" ++ uuid } else e0
  if e1.source = some EventSource.local ∨ ¬connected then
    (ledger ++ [e1], e1)
  else
    match googleCreate with
    | some g => (ledger, g)
    | none =>
        let e2 := { e1 with source := some EventSource.local }
        (ledger ++ [e2], e2)

/-- The exception write of `updateEvent`'s recurring-instance path: replace
the first existing entry with the same date, else push a new entry at the
end (`findIndex` + assignment / `push` in the source). -/
def upsertModifiedException : List EventException → Int → ModifiedPayload → List EventException
  | [], d, p => [{ date := d, status := ExceptionStatus.modified, modifiedEvent := some p }]
  | ex :: rest, d, p =>
      if ex.date = d then
        { date := d, status := ExceptionStatus.modified, modifiedEvent := some p } :: rest
      else
        ex :: upsertModifiedException rest d p

/-- The `modifiedEvent` payload `updateEvent` builds from the updated
instance. -/
def payloadOfEvent (u : CalendarEvent) : ModifiedPayload :=
  { title := u.title, description := u.description, start := u.start, stop := u.stop
    location := u.location, color := u.color, allDay := u.allDay }

/-- The non-instance tail of `updateEvent`: Google-side update when the
event is a Google event and tokens exist (`googleUpdate` its result,
`none` = failure, falling through to the local replace), else replace by id
in the ledger. -/
def updateEventRegular (hasTokens : Bool) (googleUpdate : Option CalendarEvent)
    (ledger : List CalendarEvent) (u : CalendarEvent) :
    List CalendarEvent × CalendarEvent :=
  match (if u.source = some EventSource.google ∧ hasTokens then googleUpdate else none) with
  | some g => (ledger, g)
  | none =>
      match ledger.find? (fun e => e.id == u.id) with
      | some old => ((ledger.erase old) ++ [u], u)
      | none => (ledger ++ [u], u)

/-- `updateEvent` of `src/lib/calendar.ts`.  A recurring-instance update
whose master is found and recurring becomes an exception upsert on the
master (the master is re-written; the instance itself is returned); every
other case falls through to `updateEventRegular`. -/
def updateEvent (hasTokens : Bool) (googleUpdate : Option CalendarEvent)
    (timezone : String) (ledger : List CalendarEvent) (updatedEvent : CalendarEvent) :
    List CalendarEvent × CalendarEvent :=
  let u := { updatedEvent with timezone := some (updatedEvent.timezone.getD timezone) }
  match u.isRecurringInstance, u.originalEventId with
  | true, some oid =>
    (match (ledger.find? (fun e => e.id == oid)) with
     | some originalEvent =>
       (match originalEvent.recurrence with
        | some _ =>
            let d := u.exceptionDate.getD u.start
            let exs := upsertModifiedException (originalEvent.exceptions.getD []) d (payloadOfEvent u)
            ((ledger.erase originalEvent) ++ [{ originalEvent with exceptions := some exs }], u)
        | none => updateEventRegular hasTokens googleUpdate ledger u)
     | none => updateEventRegular hasTokens googleUpdate ledger u)
  | _, _ => updateEventRegular hasTokens googleUpdate ledger u

/-- The exception write of `deleteEvent`'s recurring-instance path: an
unconditional `exceptions.push({date, status: "cancelled"})`. -/
def appendCancelledException (exs : List EventException) (d : Int) : List EventException :=
  exs ++ [{ date := d, status := ExceptionStatus.cancelled, modifiedEvent := none }]

/-- Structural character-level split, modelling JS `String#split` with a
single-character separator (core `String.splitOn` is well-founded-recursive
and so opaque to kernel evaluation). -/
def splitChars (sep : Char) : List Char → List (List Char)
  | [] => [[]]
  | ch :: rest =>
      let r := splitChars sep rest
      if ch = sep then [] :: r
      else (ch :: r.headD []) :: r.tail

/-- JS `s.split(sep)` for a one-character separator. -/
def splitOnChar (sep : Char) (s : String) : List String :=
  (splitChars sep s.data).map (fun l => String.mk l)

/-- JS `s.includes(c)` for a one-character needle. -/
def containsChar (s : String) (c : Char) : Bool :=
  s.data.any (fun ch => ch == c)

/-- `Number.parseInt` on an all-digit string (the only inputs the reached
code path produces). -/
def digitsToNat (l : List Char) : Nat :=
  l.foldl (fun acc ch => acc * 10 + (ch.toNat - 48)) 0

/-- `new Date(parseInt(s[0..4]), parseInt(s[4..6]) - 1, parseInt(s[6..8]))`
on the `yyyyMMdd` stamp, under a UTC runtime: midnight of that civil date. -/
def parseInstanceDate (stamp : String) : Int :=
  let cs := stamp.data
  let y := digitsToNat (cs.take 4)
  let m := digitsToNat ((cs.drop 4).take 2)
  let d := digitsToNat ((cs.drop 6).take 2)
  daysFromCivil (Int.ofNat y) (Int.ofNat m) (Int.ofNat d) * msPerDay

/-- The non-instance tail of `deleteEvent`.  When the id is absent from the
ledger and the user is Google-connected, the source awaits
`deleteGoogleCalendarEvent` (which never throws — it catches internally and
returns a boolean the caller ignores), deletes the metadata key and returns
`true`; disconnected, it returns `false`.  When the event is found, a
Google-side delete is attempted (errors ignored) and the ledger entry is
removed. -/
def deleteEventRegular (providerGoogle hasTokens : Bool)
    (ledger : List CalendarEvent) (eventId : String) : List CalendarEvent × Bool :=
  match ledger.find? (fun e => e.id == eventId) with
  | none =>
      if providerGoogle ∧ hasTokens then (ledger, true) else (ledger, false)
  | some event => (ledger.erase event, true)

/-- `deleteEvent` of `src/lib/calendar.ts`.  An id containing `"_"` (without
`deleteAllInstances`) is treated as a recurring-instance id: the master id
is taken to be `eventId.split("_")[0]` — the text before the FIRST
underscore — and the date stamp `split("_")[1]`; if that master exists and
recurs, a cancelled exception is appended and the master re-written.  All
other cases fall through to `deleteEventRegular`. -/
def deleteEvent (providerGoogle hasTokens : Bool) (ledger : List CalendarEvent)
    (eventId : String) (deleteAllInstances : Bool) : List CalendarEvent × Bool :=
  if containsChar eventId '_' ∧ ¬deleteAllInstances then
    let parts := splitOnChar '_' eventId
    let originalEventId := parts.headD ""
    match ledger.find? (fun e => e.id == originalEventId) with
    | some originalEvent =>
      (match originalEvent.recurrence with
       | some _ =>
          let instanceDate := parseInstanceDate (parts.getD 1 "")
          let exs := appendCancelledException (originalEvent.exceptions.getD []) instanceDate
          ((ledger.erase originalEvent) ++ [{ originalEvent with exceptions := some exs }], true)
       | none => deleteEventRegular providerGoogle hasTokens ledger eventId)
    | none => deleteEventRegular providerGoogle hasTokens ledger eventId
  else
    deleteEventRegular providerGoogle hasTokens ledger eventId

/-! ## `src/lib/ai-tools.ts` — free-slot computation -/

structure FreeSlot where
  start : Int
  stop : Int
  duration : Int
deriving DecidableEq, Repr

/-- `areIntervalsOverlapping` of `date-fns` with default (exclusive)
semantics: `aStart < bEnd && bStart < aEnd`. -/
def intervalsOverlap (aStart aEnd bStart bEnd : Int) : Bool :=
  decide (aStart < bEnd) && decide (bStart < aEnd)

/-- The boundary walk of `findFreeTimeSlots`: for each consecutive pair of
the augmented event list, emit a slot when the gap from the first's end to
the second's start is at least `minDurationMinutes`. -/
def gapSlots : List (Int × Int) → Int → List FreeSlot
  | a :: b :: rest, minDurationMinutes =>
      let gap := b.1 - a.2
      (if gap ≥ minDurationMinutes * 60000 then
        [{ start := a.2, stop := b.1, duration := Int.fdiv gap 60000 }]
       else []) ++ gapSlots (b :: rest) minDurationMinutes
  | _, _ => []

/-- `findFreeTimeSlots` of `src/lib/ai-tools.ts` on a merged event list
(the `getEvents` result): iterate the days from `startOfDay(start)` to
`endOfDay(end)`, clamp each day's 09:00–17:00 work window to the query
window, collect the day's overlapping events (sorted by start), add
synthetic zero-length boundary events at the effective day start/end and
walk the gaps.  Slot labels (display strings) are not modelled. -/
def findFreeTimeSlots (events : List CalendarEvent) (start endT : Int)
    (minDurationMinutes : Int) : List FreeSlot :=
  let sorted := sortByStart events
  let firstDay := dayOfInstant start
  let numDays := (dayOfInstant endT - firstDay + 1).toNat
  (List.range numDays).flatMap fun i =>
    let day := (firstDay + i) * msPerDay
    let dayStart := day + 9 * 3600000
    let dayEnd := day + 17 * 3600000
    if dayEnd < start ∨ dayStart > endT then
      []
    else
      let effStart := if dayStart < start then start else dayStart
      let effEnd := if dayEnd > endT then endT else dayEnd
      let dayEvents := sorted.filter (fun e => intervalsOverlap effStart effEnd e.start e.stop)
      let augmented := (effStart, effStart) :: (dayEvents.map (fun e => (e.start, e.stop))) ++ [(effEnd, effEnd)]
      gapSlots augmented minDurationMinutes

/-! ## Definitions from the spec's words (for refinement comparison only) -/

/-- Spec §4.1's "half-open interval overlap test" between the event interval
`[start, end)` and the window `[windowStart, windowEnd)` — stated from the
spec's words, to be compared with `nonRecurringIncluded` from the source. -/
def specHalfOpenOverlap (e : CalendarEvent) (startTs endTs : Int) : Bool :=
  decide (e.start < endTs) && decide (startTs < e.stop)

/-! ## Concrete inputs shared by the claim theorems -/

/-- Offset table where every zone is UTC (offset 0). -/
def zonesUTC : String → Int → Int := fun _ _ => 0

/-- Offset table with Asia/Tokyo at +540 minutes and everything else at
UTC (a fixed-offset fragment of the IANA database). -/
def zonesTokyo : String → Int → Int := fun tz _ => if tz = "Asia/Tokyo" then 540 else 0

/-- A Google-side event with native id `X` (converted id `google_X`),
2024-01-01 10:00–11:00 UTC. -/
def gEvX : GoogleCalendarEvent :=
  { id := "X", summary := "standup", startDateTime := 1704103200000, stopDateTime := 1704106800000 }

/-- A local ledger event carrying the same id `google_X` as the converted
external event, same window. -/
def localDupX : CalendarEvent :=
  { id := "google_X", title := "standup (local copy)", start := 1704103200000,
    stop := 1704106800000, userId := "u", timezone := some "UTC" }

/-- A previously mirrored external event (in the cache `google_events:u`),
2024-01-01 10:00–11:00 UTC. -/
def cachedY : CalendarEvent :=
  { id := "google_Y", title := "cached", start := 1704103200000, stop := 1704106800000,
    userId := "u", source := some EventSource.google, timezone := some "UTC" }

/-- A plain local event used for the refresh-failure scenarios. -/
def localPlain : CalendarEvent :=
  { id := "L1", title := "local", start := 1704103200000, stop := 1704106800000,
    userId := "u", timezone := some "UTC" }

/-- A zoned one-hour event at the epoch, not all-day. -/
def eZoned : CalendarEvent :=
  { id := "e3", title := "zoned", start := 0, stop := 3600000, userId := "u",
    timezone := some "UTC" }

/-- A daily recurrence rule with interval 1. -/
def ruleDaily : RecurrenceRule := { frequency := Frequency.daily, interval := 1 }

/-- A recurring master whose own id contains an underscore, exactly the
shape `createEvent` generates (`event_{uuid}`). -/
def masterUnderscore : CalendarEvent :=
  { id := "event_abc", title := "daily sync", start := 1704103200000, stop := 1704106800000,
    userId := "u", recurrence := some ruleDaily }

/-- C1 counterexample. The claim says `getEvents` deduplicates by id, so one
local and one external event sharing an id yield exactly one entry.  On the
code, with the external fetch returning native id `X` (converted to
`google_X`) and a local ledger event also carrying id `google_X`, `getEvents`
returns two entries with that id: there is no dedup step in `getEvents`
(only `searchEvents` deduplicates). -/
theorem C1_getEvents_duplicate_id_cex :
    ((getEvents zonesUTC { connected := true, fetch := FetchOutcome.ok [gEvX], mirror := [] }
        "u" "UTC" [localDupX] 1704067200000 1705276800000).countP
      (fun e => e.id == "google_X")) = 2 ∧ (2 : Nat) ≠ 1 := by
  constructor
  · decide
  · decide

/-- C1 (corrected): `getEvents` concatenates the external contribution with
the processed local events and stably sorts by start; it performs no
deduplication, so every entry of either source appears in the result with
its multiplicity preserved (in particular a shared id can occur twice). -/
theorem C1_getEvents_concat_sort_amended (zones : String → Int → Int) (gs : GoogleState)
    (userId timezone : String) (localEvents : List CalendarEvent) (startUtc endUtc : Int) :
    (getEvents zones gs userId timezone localEvents startUtc endUtc).Perm
      (externalContribution gs userId ++
        localContribution zones timezone localEvents startUtc endUtc) ∧
    ∀ p : CalendarEvent → Bool,
      (getEvents zones gs userId timezone localEvents startUtc endUtc).countP p =
        (externalContribution gs userId).countP p +
          (localContribution zones timezone localEvents startUtc endUtc).countP p := by
  refine ⟨List.perm_insertionSort startLE _, fun p => ?_⟩
  exact ((List.perm_insertionSort startLE _).countP_eq p).trans (List.countP_append _ _ _)

/-- C2 counterexample. With the provider fetch failing and the mirror cache
holding `cachedY` (which lies inside the query window), `getEvents` returns
the empty list: the cached mirror is not read on the failure path (it is
never read anywhere), contradicting the claimed fallback. -/
theorem C2_no_mirror_fallback_cex :
    getEvents zonesUTC { connected := true, fetch := FetchOutcome.httpError, mirror := [cachedY] }
        "u" "UTC" [] 1704067200000 1705276800000 = [] ∧
    cachedY ∈ ({ connected := true, fetch := FetchOutcome.httpError, mirror := [cachedY] } :
        GoogleState).mirror ∧
    nonRecurringIncluded cachedY 1704067200000 1705276800000 = true := by
  refine ⟨by decide, by decide, by decide⟩

/-- C2 (corrected): when the external fetch fails (network/HTTP error or
token-refresh failure), `getEvents` still succeeds but its external
contribution is empty — the request degrades to the local ledger alone, and
the result is independent of whatever the mirror cache holds; the cached
mirror is written on success but never read back. -/
theorem C2_provider_failure_local_only_amended (zones : String → Int → Int)
    (userId timezone : String) (localEvents : List CalendarEvent) (startUtc endUtc : Int)
    (mirror mirror' : List CalendarEvent) (fetch : FetchOutcome)
    (h : fetch = FetchOutcome.httpError ∨ fetch = FetchOutcome.refreshFailed) :
    getEvents zones { connected := true, fetch := fetch, mirror := mirror }
        userId timezone localEvents startUtc endUtc =
      sortByStart (localContribution zones timezone localEvents startUtc endUtc) ∧
    getEvents zones { connected := true, fetch := fetch, mirror := mirror }
        userId timezone localEvents startUtc endUtc =
      getEvents zones { connected := true, fetch := fetch, mirror := mirror' }
        userId timezone localEvents startUtc endUtc := by
  rcases h with h | h <;> subst h <;>
    exact ⟨by simp [getEvents, externalContribution, getGoogleCalendarEvents],
           by simp [getEvents, externalContribution, getGoogleCalendarEvents]⟩

/-- C2 witness: the corrected statement at a concrete failing fetch with a
non-empty mirror. -/
theorem C2_provider_failure_local_only_witness :
    getEvents zonesUTC { connected := true, fetch := FetchOutcome.httpError, mirror := [cachedY] }
        "u" "UTC" [localPlain] 1704067200000 1705276800000 =
      sortByStart (localContribution zonesUTC "UTC" [localPlain] 1704067200000 1705276800000) ∧
    getEvents zonesUTC { connected := true, fetch := FetchOutcome.httpError, mirror := [cachedY] }
        "u" "UTC" [localPlain] 1704067200000 1705276800000 =
      getEvents zonesUTC { connected := true, fetch := FetchOutcome.httpError, mirror := [] }
        "u" "UTC" [localPlain] 1704067200000 1705276800000 :=
  C2_provider_failure_local_only_amended zonesUTC "u" "UTC" [localPlain]
    1704067200000 1705276800000 [cachedY] [] FetchOutcome.httpError (Or.inl rfl)

/-- C3 counterexample. Converting the non-all-day event `eZoned` from UTC to
Asia/Tokyo (+540 min) and back does not restore its start instant: the code
adds the destination zone's offset on each conversion (the source zone is
never consulted), so the round trip shifts start by 540 minutes. -/
theorem C3_roundtrip_cex :
    (adjustEventTimezone zonesTokyo
        (adjustEventTimezone zonesTokyo eZoned "UTC" "Asia/Tokyo") "Asia/Tokyo" "UTC").start
      ≠ eZoned.start := by
  decide

/-- C3 (corrected): `adjustEventTimezone` ignores `fromZone` except for the
equality test and shifts `start`/`end` by `toZone`'s offset; hence the
A→B→A round trip shifts each of start/end by `offset_B + offset_A` (as
sampled at the relevant instants) instead of restoring them, and restores
the event only when those offsets cancel.  The claimed no-ops do hold:
conversion with equal zone names, or on an all-day event, returns the event
unchanged. -/
theorem C3_adjust_shift_amended (zones : String → Int → Int) (e : CalendarEvent)
    (A B : String) (hAB : A ≠ B) (hAllDay : e.allDay = false) :
    ((adjustEventTimezone zones (adjustEventTimezone zones e A B) B A).start =
        e.start + zones B e.start * 60000 +
          zones A (e.start + zones B e.start * 60000) * 60000 ∧
      (adjustEventTimezone zones (adjustEventTimezone zones e A B) B A).stop =
        e.stop + zones B e.stop * 60000 +
          zones A (e.stop + zones B e.stop * 60000) * 60000 ∧
      (adjustEventTimezone zones (adjustEventTimezone zones e A B) B A).timezone = some A) ∧
    (∀ tz : String, ∀ e' : CalendarEvent, adjustEventTimezone zones e' tz tz = e') ∧
    (∀ A' B' : String, ∀ e' : CalendarEvent,
      adjustEventTimezone zones { e' with allDay := true } A' B' = { e' with allDay := true }) := by
  refine ⟨?_, fun tz e' => by simp [adjustEventTimezone], fun A' B' e' => by simp [adjustEventTimezone]⟩
  have h1 : adjustEventTimezone zones e A B =
      { e with start := e.start + zones B e.start * 60000,
               stop := e.stop + zones B e.stop * 60000,
               timezone := some B } := by
    simp [adjustEventTimezone, hAB, hAllDay]
  rw [h1]
  simp [adjustEventTimezone, Ne.symm hAB, hAllDay]

/-- C3 witness: the corrected round-trip formula instantiated at UTC and
Asia/Tokyo on the concrete zoned event. -/
theorem C3_adjust_shift_witness :
    (adjustEventTimezone zonesTokyo
        (adjustEventTimezone zonesTokyo eZoned "UTC" "Asia/Tokyo") "Asia/Tokyo" "UTC").start =
      eZoned.start + zonesTokyo "Asia/Tokyo" eZoned.start * 60000 +
        zonesTokyo "UTC" (eZoned.start + zonesTokyo "Asia/Tokyo" eZoned.start * 60000) * 60000 :=
  (C3_adjust_shift_amended zonesTokyo eZoned "UTC" "Asia/Tokyo" (by decide) rfl).1.1

/-- C4 (code bug): deleting the derived instance `event_abc_20240101` of the
recurring master `event_abc` (an id of exactly the shape `createEvent`
generates) does not append a cancelled exception: `deleteEvent` recovers the
master id as `split("_")[0] = "event"`, finds no such ledger entry, falls
through to regular deletion and returns `false` with the ledger unchanged.
The first conjunct shows the expansion really does produce this instance id
for this master over the 2024-01-01 window. -/
theorem C4_deleteEvent_underscore_master_bug :
    (generateRecurringInstances masterUnderscore 1704067200000 1704153600000 "UTC").map
        (fun e => e.id) = ["event_abc_20240101"] ∧
    (splitOnChar '_' "event_abc_20240101").headD "" = "event" ∧
    deleteEvent false false [masterUnderscore] "event_abc_20240101" false =
      ([masterUnderscore], false) := by
  refine ⟨by decide, by decide, by decide⟩

/-- The spec's concrete weekly rule: interval 1, byDay `[MO, WE]`,
count 4. -/
def ruleWeeklyMW : RecurrenceRule :=
  { frequency := Frequency.weekly, interval := 1, count := some 4,
    byDay := some ["MO", "WE"] }

/-- Master for the count scenario: `dtstart` 2024-01-01T10:00Z (a Monday),
one-hour duration. -/
def masterWeekly : CalendarEvent :=
  { id := "m", title := "team sync", start := 1704103200000, stop := 1704106800000,
    userId := "u", recurrence := some ruleWeeklyMW }

/-- C5 (confirmed): the weekly `[MO, WE]`, `interval = 1`, `count = 4` rule
anchored at 2024-01-01T10:00Z expands over the window
[2024-01-01T00:00Z, 2024-01-15T00:00Z] to exactly the occurrences on
Jan 1, 3, 8 and 10 at 10:00, each with the master's one-hour duration; and
over the later window starting 2024-01-08 the same master yields only the
Jan 8 and Jan 10 occurrences — counting is series-relative (the first four
occurrences from `dtstart`), not window-relative. -/
theorem C5_count_series_relative :
    generateRecurringInstances masterWeekly 1704067200000 1705276800000 "UTC" =
      [{ masterWeekly with
         id := "m_20240101"
         start := 1704103200000
         stop := 1704106800000
         isRecurringInstance := true
         originalEventId := some "m" },
       { masterWeekly with
         id := "m_20240103"
         start := 1704276000000
         stop := 1704279600000
         isRecurringInstance := true
         originalEventId := some "m" },
       { masterWeekly with
         id := "m_20240108"
         start := 1704708000000
         stop := 1704711600000
         isRecurringInstance := true
         originalEventId := some "m" },
       { masterWeekly with
         id := "m_20240110"
         start := 1704880800000
         stop := 1704884400000
         isRecurringInstance := true
         originalEventId := some "m" }] ∧
    generateRecurringInstances masterWeekly 1704672000000 1705276800000 "UTC" =
      [{ masterWeekly with
         id := "m_20240108"
         start := 1704708000000
         stop := 1704711600000
         isRecurringInstance := true
         originalEventId := some "m" },
       { masterWeekly with
         id := "m_20240110"
         start := 1704880800000
         stop := 1704884400000
         isRecurringInstance := true
         originalEventId := some "m" }] := by
  refine ⟨by decide, by decide⟩

/-- A cancelled exception on 2024-01-08 (stored date: midnight UTC). -/
def exceptionCancelledJan8 : EventException :=
  { date := 1704672000000, status := ExceptionStatus.cancelled }

/-- The payload of a modified exception moving the occurrence to
2024-01-03 14:00–15:00 under the title `Moved`. -/
def payloadMoved : ModifiedPayload :=
  { title := "Moved", start := 1704290400000, stop := 1704294000000 }

/-- A modified exception on 2024-01-03 carrying `payloadMoved`. -/
def exceptionModifiedJan3 : EventException :=
  { date := 1704240000000, status := ExceptionStatus.modified,
    modifiedEvent := some payloadMoved }

/-- The weekly master with one cancelled and one modified exception on
distinct dates. -/
def masterWithExceptions : CalendarEvent :=
  { masterWeekly with exceptions := some [exceptionCancelledJan8, exceptionModifiedJan3] }

/-- C6 (confirmed): expansion of a recurring master maps the count-limited
occurrence list through the per-occurrence exception overlay (so a
cancelled occurrence still consumes `count`): an occurrence whose calendar
date matches a `cancelled` exception is dropped; one matching a `modified`
exception with a payload is emitted with the payload's start/end, its
title/description/location/color overridden with fallback to the master's,
and tagged with `exceptionDate`; an occurrence with no matching exception
is emitted as a plain instance with the master's duration. -/
theorem C6_exception_overlay (e : CalendarEvent) (rule : RecurrenceRule) (s w : Int)
    (tz : String) (h : e.recurrence = some rule) :
    generateRecurringInstances e s w tz =
      (rruleBetween (recurrenceRuleToRRuleOptions rule e.start) s w).filterMap
        (emitInstance e (e.stop - e.start)) ∧
    (∀ t ex, (e.exceptions.getD []).find? (fun x => sameCivilDate x.date t) = some ex →
      ex.status = ExceptionStatus.cancelled →
      emitInstance e (e.stop - e.start) t = none) ∧
    (∀ t ex m, (e.exceptions.getD []).find? (fun x => sameCivilDate x.date t) = some ex →
      ex.status = ExceptionStatus.modified → ex.modifiedEvent = some m →
      emitInstance e (e.stop - e.start) t = some { e with
        id := e.id ++ "_" ++ dateStamp t,
        start := m.start, stop := m.stop,
        title := jsOrStr m.title e.title,
        description := jsOrOpt m.description e.description,
        location := jsOrOpt m.location e.location,
        color := jsOrOpt m.color e.color,
        isRecurringInstance := true, originalEventId := some e.id,
        exceptionDate := some ex.date }) ∧
    (∀ t, (e.exceptions.getD []).find? (fun x => sameCivilDate x.date t) = none →
      emitInstance e (e.stop - e.start) t = some { e with
        id := e.id ++ "_" ++ dateStamp t, start := t, stop := t + (e.stop - e.start),
        isRecurringInstance := true, originalEventId := some e.id }) := by
  refine ⟨by simp [generateRecurringInstances, h], ?_, ?_, ?_⟩
  · intro t ex hf hc
    simp [emitInstance, hf, hc]
  · intro t ex m hf hst hme
    simp [emitInstance, hf, hst, hme]
  · intro t hf
    simp [emitInstance, hf]

/-- C6 witness: the exception-precedence scenario — weekly `[MO, WE]` with
`count = 4`, a cancelled exception on Jan 8 and a modified one on Jan 3 —
expanded over [2024-01-01, 2024-01-15]: Jan 1 plain, Jan 3 with the
overridden payload and `exceptionDate` tag, Jan 8 dropped, Jan 10 plain,
and no Jan 15 occurrence (the cancelled Jan 8 still consumed `count`). -/
theorem C6_exception_overlay_witness :
    masterWithExceptions.recurrence = some ruleWeeklyMW ∧
    generateRecurringInstances masterWithExceptions 1704067200000 1705276800000 "UTC" =
      (rruleBetween (recurrenceRuleToRRuleOptions ruleWeeklyMW masterWithExceptions.start)
          1704067200000 1705276800000).filterMap
        (emitInstance masterWithExceptions (masterWithExceptions.stop - masterWithExceptions.start)) ∧
    generateRecurringInstances masterWithExceptions 1704067200000 1705276800000 "UTC" =
      [{ masterWithExceptions with
         id := "m_20240101"
         start := 1704103200000
         stop := 1704106800000
         isRecurringInstance := true
         originalEventId := some "m" },
       { masterWithExceptions with
         id := "m_20240103"
         start := 1704290400000
         stop := 1704294000000
         title := "Moved"
         isRecurringInstance := true
         originalEventId := some "m"
         exceptionDate := some 1704240000000 },
       { masterWithExceptions with
         id := "m_20240110"
         start := 1704880800000
         stop := 1704884400000
         isRecurringInstance := true
         originalEventId := some "m" }] :=
  ⟨rfl,
   (C6_exception_overlay masterWithExceptions ruleWeeklyMW 1704067200000 1705276800000
      "UTC" rfl).1,
   by decide⟩

/-- A non-recurring event ending exactly at the window's start boundary. -/
def eBoundary : CalendarEvent :=
  { id := "e7", title := "boundary", start := 999900, stop := 1000000, userId := "u" }

/-- C7 counterexample. An event whose end coincides with the window start
is included by the code's window test (it returns a singleton), yet the two
half-open intervals are disjoint — the source test is closed-interval, not
the half-open test the claim states. -/
theorem C7_halfopen_cex :
    (processLocalEvent zonesUTC "UTC" 1000000 2000000 eBoundary).length = 1 ∧
    specHalfOpenOverlap eBoundary 1000000 2000000 = false := by
  refine ⟨by decide, by decide⟩

/-- C7 (corrected): for a non-recurring event (with a well-formed interval,
start ≤ end), `getEvents`' per-event processing returns the timezone-adjusted
singleton exactly when the event's closed interval `[start, end]` meets the
closed window `[windowStart, windowEnd]` — boundary-touching events are
included — and the empty list otherwise; the overlap test is
closed-interval, not half-open. -/
theorem C7_closed_overlap_amended (zones : String → Int → Int) (tz : String)
    (s w : Int) (e : CalendarEvent) (hrec : e.recurrence = none)
    (hse : e.start ≤ e.stop) (hsw : s ≤ w) :
    processLocalEvent zones tz s w e =
      (if nonRecurringIncluded e s w then
        [adjustEventTimezone zones e (e.timezone.getD "UTC") tz]
       else []) ∧
    (nonRecurringIncluded e s w = true ↔ (e.start ≤ w ∧ s ≤ e.stop)) := by
  constructor
  · simp [processLocalEvent, hrec]
  · simp only [nonRecurringIncluded, Bool.or_eq_true, Bool.and_eq_true, decide_eq_true_eq]
    omega

/-- C7 witness: the corrected overlap characterisation at the concrete
boundary-touching event. -/
theorem C7_closed_overlap_witness :
    eBoundary.recurrence = none ∧ eBoundary.start ≤ eBoundary.stop ∧ (1000000 : Int) ≤ 2000000 ∧
    (nonRecurringIncluded eBoundary 1000000 2000000 = true ↔
      (eBoundary.start ≤ 2000000 ∧ 1000000 ≤ eBoundary.stop)) :=
  ⟨rfl, by decide, by decide,
   (C7_closed_overlap_amended zonesUTC "UTC" 1000000 2000000 eBoundary rfl (by decide)
      (by decide)).2⟩

/-- C8 counterexample. With valid-looking credentials but a failing token
refresh, `getGoogleCalendarEvents` returns `[]` (its `catch` swallows the
refresh error) and `getEvents` returns exactly what it returns for a user
with no Google connection at all — a plain local-only success, with no auth
failure surfaced to the caller. -/
theorem C8_refresh_swallowed_cex :
    getGoogleCalendarEvents FetchOutcome.refreshFailed "u" = [] ∧
    getEvents zonesUTC { connected := true, fetch := FetchOutcome.refreshFailed, mirror := [] }
        "u" "UTC" [localPlain] 1704067200000 1705276800000 =
      getEvents zonesUTC { connected := false, fetch := FetchOutcome.refreshFailed, mirror := [] }
        "u" "UTC" [localPlain] 1704067200000 1705276800000 ∧
    getEvents zonesUTC { connected := true, fetch := FetchOutcome.refreshFailed, mirror := [] }
        "u" "UTC" [localPlain] 1704067200000 1705276800000 ≠ [] := by
  refine ⟨by decide, by decide, by decide⟩

/-- `createEvent` with a Google connection but a failed external create
stores the event locally with `source` downgraded to `local` and returns
the stored event. -/
theorem createEvent_failure_local_fallback (uuid tzc : String)
    (ledger : List CalendarEvent) (e : CalendarEvent) :
    (createEvent true none uuid tzc ledger e).2.source = some EventSource.local ∧
    (createEvent true none uuid tzc ledger e).1 =
      ledger ++ [(createEvent true none uuid tzc ledger e).2] := by
  by_cases hid : e.id = "" <;> by_cases hloc : e.source = some EventSource.local <;>
    simp [createEvent, hid, hloc]

/-- C8 (corrected): a token-refresh failure is silently swallowed, not
surfaced.  On the read path the external contribution collapses to `[]` and
`getEvents` is indistinguishable from the disconnected case; on the write
path a failed external create (including refresh failure, collapsed to
`null` inside `createGoogleCalendarEvent`) falls back to a durable local
write with `source` downgraded to `local` — in every case the operation
reports success. -/
theorem C8_refresh_failure_swallowed_amended (zones : String → Int → Int)
    (userId timezone : String) (localEvents : List CalendarEvent)
    (startUtc endUtc : Int) (mirror : List CalendarEvent) :
    externalContribution { connected := true, fetch := FetchOutcome.refreshFailed, mirror := mirror }
        userId = [] ∧
    getEvents zones { connected := true, fetch := FetchOutcome.refreshFailed, mirror := mirror }
        userId timezone localEvents startUtc endUtc =
      getEvents zones { connected := false, fetch := FetchOutcome.refreshFailed, mirror := mirror }
        userId timezone localEvents startUtc endUtc ∧
    (∀ uuid tzc : String, ∀ ledger : List CalendarEvent, ∀ e : CalendarEvent,
      (createEvent true none uuid tzc ledger e).2.source = some EventSource.local ∧
      (createEvent true none uuid tzc ledger e).1 =
        ledger ++ [(createEvent true none uuid tzc ledger e).2]) := by
  exact ⟨by simp [externalContribution, getGoogleCalendarEvents],
         by simp [getEvents, externalContribution, getGoogleCalendarEvents],
         fun uuid tzc ledger e => createEvent_failure_local_fallback uuid tzc ledger e⟩

/-- A recurring daily master (id without underscore, so `deleteEvent`'s
instance path does engage) that already carries a cancelled exception for
2024-01-05. -/
def masterDup : CalendarEvent :=
  { id := "m", title := "daily standup", start := 1704103200000, stop := 1704106800000,
    userId := "u", recurrence := some ruleDaily,
    exceptions := some [{ date := 1704412800000, status := ExceptionStatus.cancelled }] }

/-- C9 counterexample. Deleting the 2024-01-05 instance of a master that
already has a cancelled exception for that date appends a second entry for
the same date instead of replacing the first: after the call the master
holds two exception entries dated 2024-01-05, violating the claimed
at-most-one-per-date invariant. -/
theorem C9_deleteEvent_duplicate_exception_cex :
    deleteEvent false false [masterDup] "m_20240105" false =
      ([{ masterDup with
          exceptions := some
            [{ date := 1704412800000, status := ExceptionStatus.cancelled },
             { date := 1704412800000, status := ExceptionStatus.cancelled }] }], true) ∧
    ((((deleteEvent false false [masterDup] "m_20240105" false).1.headD masterDup).exceptions.getD
        []).countP (fun ex => ex.date == 1704412800000)) = 2 := by
  refine ⟨by decide, by decide⟩

/-- Membership in an upsert result comes from the original list or carries
the upserted date. -/
theorem mem_upsertModifiedException {x : EventException} :
    ∀ {exs : List EventException} {d : Int} {p : ModifiedPayload},
      x ∈ upsertModifiedException exs d p → x ∈ exs ∨ x.date = d := by
  intro exs
  induction exs with
  | nil =>
      intro d p h
      simp only [upsertModifiedException, List.mem_singleton] at h
      subst h
      exact Or.inr rfl
  | cons ex rest ih =>
      intro d p h
      by_cases hc : ex.date = d
      · simp only [upsertModifiedException, if_pos hc, List.mem_cons] at h
        rcases h with h | h
        · subst h; exact Or.inr rfl
        · exact Or.inl (List.mem_cons_of_mem _ h)
      · simp only [upsertModifiedException, if_neg hc, List.mem_cons] at h
        rcases h with h | h
        · subst h; exact Or.inl (List.mem_cons_self _ _)
        · rcases ih h with h' | h'
          · exact Or.inl (List.mem_cons_of_mem _ h')
          · exact Or.inr h'

/-- The upsert preserves date-distinctness of the exception list. -/
theorem pairwise_upsertModifiedException :
    ∀ {exs : List EventException} (d : Int) (p : ModifiedPayload),
      exs.Pairwise (fun a b => a.date ≠ b.date) →
      (upsertModifiedException exs d p).Pairwise (fun a b => a.date ≠ b.date) := by
  intro exs
  induction exs with
  | nil =>
      intro d p _
      simp [upsertModifiedException]
  | cons ex rest ih =>
      intro d p h
      rcases List.pairwise_cons.mp h with ⟨hhead, htail⟩
      by_cases hc : ex.date = d
      · simp only [upsertModifiedException, if_pos hc]
        exact List.pairwise_cons.mpr ⟨fun b hb => hc ▸ hhead b hb, htail⟩
      · simp only [upsertModifiedException, if_neg hc]
        refine List.pairwise_cons.mpr ⟨fun b hb => ?_, ih d p htail⟩
        rcases mem_upsertModifiedException hb with hbr | hbd
        · exact hhead b hbr
        · rw [hbd]; exact hc

/-- The upserted entry is present in the result. -/
theorem mem_self_upsertModifiedException :
    ∀ (exs : List EventException) (d : Int) (p : ModifiedPayload),
      ({ date := d, status := ExceptionStatus.modified, modifiedEvent := some p } :
        EventException) ∈ upsertModifiedException exs d p := by
  intro exs
  induction exs with
  | nil => intro d p; simp [upsertModifiedException]
  | cons ex rest ih =>
      intro d p
      by_cases hc : ex.date = d
      · simp [upsertModifiedException, hc]
      · simp only [upsertModifiedException, if_neg hc]
        exact List.mem_cons_of_mem _ (ih d p)

/-- C9 (corrected): `updateEvent`'s instance path rewrites the master with
an upsert-by-date on the exception list — it replaces an existing entry for
the occurrence date (preserving the at-most-one-entry-per-date invariant and
landing the new modified entry) — but `deleteEvent`'s instance path appends
a cancelled entry unconditionally, so a repeated delete of the same
occurrence duplicates entries and the invariant does not hold for the
delete path. -/
theorem C9_exception_upsert_amended (hasTokens : Bool) (googleUpdate : Option CalendarEvent)
    (tz : String) (ledger : List CalendarEvent) (u : CalendarEvent) (oid : String)
    (orig : CalendarEvent) (r : RecurrenceRule)
    (hInst : u.isRecurringInstance = true) (hOrig : u.originalEventId = some oid)
    (hFind : ledger.find? (fun e => e.id == oid) = some orig)
    (hRec : orig.recurrence = some r) :
    updateEvent hasTokens googleUpdate tz ledger u =
      ((ledger.erase orig) ++
        [{ orig with
           exceptions := some (upsertModifiedException (orig.exceptions.getD [])
             (u.exceptionDate.getD u.start)
             (payloadOfEvent { u with timezone := some (u.timezone.getD tz) })) }],
       { u with timezone := some (u.timezone.getD tz) }) ∧
    (∀ exs : List EventException, ∀ d : Int, ∀ p : ModifiedPayload,
      exs.Pairwise (fun a b => a.date ≠ b.date) →
      (upsertModifiedException exs d p).Pairwise (fun a b => a.date ≠ b.date)) ∧
    (∀ exs : List EventException, ∀ d : Int, ∀ p : ModifiedPayload,
      ({ date := d, status := ExceptionStatus.modified, modifiedEvent := some p } :
        EventException) ∈ upsertModifiedException exs d p) ∧
    (∀ exs : List EventException, ∀ d : Int,
      appendCancelledException exs d =
        exs ++ [{ date := d, status := ExceptionStatus.cancelled, modifiedEvent := none }]) := by
  refine ⟨?_, fun exs d p h => pairwise_upsertModifiedException d p h,
          fun exs d p => mem_self_upsertModifiedException exs d p,
          fun exs d => rfl⟩
  simp [updateEvent, hInst, hOrig, hFind, hRec]

/-- The in-memory update of the 2024-01-05 instance of `masterDup` (new
title, moved one hour later). -/
def instUpd : CalendarEvent :=
  { id := "m_20240105", title := "standup (moved)", start := 1704448800000,
    stop := 1704452400000, userId := "u", isRecurringInstance := true,
    originalEventId := some "m", exceptionDate := some 1704412800000 }

/-- C9 witness: the corrected statement at a concrete instance update whose
master already holds an exception for the same date — `updateEvent`
replaces it rather than appending. -/
theorem C9_exception_upsert_witness :
    instUpd.isRecurringInstance = true ∧ instUpd.originalEventId = some "m" ∧
    [masterDup].find? (fun e => e.id == "m") = some masterDup ∧
    masterDup.recurrence = some ruleDaily ∧
    updateEvent false none "UTC" [masterDup] instUpd =
      (([masterDup].erase masterDup) ++
        [{ masterDup with
           exceptions := some (upsertModifiedException (masterDup.exceptions.getD [])
             (instUpd.exceptionDate.getD instUpd.start)
             (payloadOfEvent { instUpd with timezone := some (instUpd.timezone.getD "UTC") })) }],
       { instUpd with timezone := some (instUpd.timezone.getD "UTC") }) :=
  ⟨rfl, rfl, by decide, rfl,
   (C9_exception_upsert_amended false none "UTC" [masterDup] instUpd "m" masterDup ruleDaily
      rfl rfl (by decide) rfl).1⟩

/-- The single busy event of the availability scenario: 2024-01-02
10:00–11:00 UTC. -/
def evBusy : CalendarEvent :=
  { id := "busy", title := "meeting", start := 1704189600000, stop := 1704193200000,
    userId := "u" }

/-- C10 (confirmed): on a 9–17 workday containing a single 10:00–11:00
event, `findFreeTimeSlots` with `minDurationMinutes = 60` returns exactly
the two slots 09:00–10:00 (60 min) and 11:00–17:00 (360 min); and in
general the day walk emits one slot per consecutive-boundary gap of length
at least `minDurationMinutes`, as the unfolding of `gapSlots` states. -/
theorem C10_free_slots_boundary :
    findFreeTimeSlots [evBusy] 1704153600000 1704225600000 60 =
      [{ start := 1704186000000, stop := 1704189600000, duration := 60 },
       { start := 1704193200000, stop := 1704214800000, duration := 360 }] ∧
    (∀ a b : Int × Int, ∀ rest : List (Int × Int), ∀ m : Int,
      gapSlots (a :: b :: rest) m =
        (if b.1 - a.2 ≥ m * 60000 then
          [{ start := a.2, stop := b.1, duration := Int.fdiv (b.1 - a.2) 60000 }]
         else []) ++ gapSlots (b :: rest) m) := by
  refine ⟨by decide, fun a b rest m => rfl⟩
